import Mathlib

/-!
Shallow embedding of the BlogWithUsers Flask application (src/main.py).

The relational store is a record of four tables (users, posts, comments,
messages) together with the auto-increment counters of the underlying
database (SQLite assigns 1 to the first row of each table).  Each route
handler of src/main.py becomes a Lean function from the store, the current
session identity (`Option Nat`, the flask_login current_user) and the
request inputs to a `ReqResult` holding the HTTP-level response, the store
after the request and the session after the request.  External
nondeterminism (form submission validity, the clock, the password salt) is
passed in as explicit arguments.
-/

/-- User table row (src/main.py lines 95 to 102). -/
structure User where
  id : Nat
  email : String
  password : String
  name : String
  deriving DecidableEq

/-- BlogPost table row (src/main.py lines 80 to 91).  The title column is
declared with a UNIQUE constraint (line 85); project_url is nullable
(line 90). -/
structure BlogPost where
  id : Nat
  author_id : Nat
  title : String
  subtitle : String
  date : String
  body : String
  img_url : String
  project_url : Option String
  deriving DecidableEq

/-- Comment table row (src/main.py lines 106 to 113). -/
structure Comment where
  id : Nat
  text : String
  author_id : Nat
  post_id : Nat
  deriving DecidableEq

/-- Message table row (src/main.py lines 117 to 124).  The date column is
a server-assigned creation timestamp, modelled as a Nat. -/
structure Message where
  id : Nat
  name : String
  email : String
  phone : Option String
  message : String
  date : Nat
  deriving DecidableEq

/-- The relational store: the four tables plus the auto-increment counter
of each table (SQLite primary keys start at 1). -/
structure DB where
  users : List User
  posts : List BlogPost
  comments : List Comment
  messages : List Message
  nextUserId : Nat
  nextPostId : Nat
  nextCommentId : Nat
  nextMessageId : Nat
  deriving DecidableEq

/-- The store produced by db.create_all() on a fresh database
(src/main.py line 128). -/
def DB.empty : DB :=
  { users := [], posts := [], comments := [], messages := [],
    nextUserId := 1, nextPostId := 1, nextCommentId := 1, nextMessageId := 1 }

/-- HTTP-level outcome of a request: a rendered template, a redirect
(optionally carrying a flash message), abort(403), a 404 from
db.get_or_404, or an unhandled exception propagating as a server error. -/
inductive Response where
  | rendered (template : String)
  | redirect (target : String) (flash : Option String)
  | forbidden
  | notFound
  | fatal (msg : String)
  deriving DecidableEq

/-- Result of one request: response, store after the request and session
after the request. -/
structure ReqResult where
  resp : Response
  db : DB
  session : Option Nat
  deriving DecidableEq

/-! ## Credential subsystem

Modelled from the spec: the credential primitives
werkzeug.security.generate_password_hash / check_password_hash are a
library dependency, not code of this repository.  Per the spec (section
4.1) they implement a salted PBKDF2-HMAC-SHA256 scheme whose stored form
is method$salt$digest and whose verification recomputes the digest from
the stored salt and compares.  The digest itself is abstracted as an
injective function of the plaintext for a fixed salt (one-wayness is not
representable in a shallow embedding and is not needed by any claim). -/

/-- Modelled from the spec: the PBKDF2-HMAC-SHA256 digest, abstracted as
an injective function of the plaintext for a fixed salt. -/
def hashDigest (salt pw : List Char) : List Char :=
  pw.reverse ++ salt

/-- Modelled from the spec: werkzeug generate_password_hash with
method pbkdf2:sha256 (src/main.py line 161 chooses the method and an
8-character salt).  Produces method$salt$digest. -/
def generate_password_hash (salt password : String) : String :=
  String.mk ("pbkdf2:sha256:600000".data ++
    '$' :: (salt.data ++ '$' :: hashDigest salt.data password.data))

/-- Split a character list at the first occurrence of sep. -/
def splitFirst (sep : Char) : List Char → Option (List Char × List Char)
  | [] => none
  | c :: cs =>
    if c = sep then some ([], cs)
    else match splitFirst sep cs with
      | none => none
      | some (a, b) => some (c :: a, b)

/-- Modelled from the spec: werkzeug check_password_hash.  Parses the
stored value as method$salt$digest (the first two separators, as werkzeug
splits with maxsplit 2) and compares the stored digest with the digest
recomputed from the candidate. -/
def check_password_hash (pwhash password : String) : Bool :=
  match splitFirst '$' pwhash.data with
  | none => false
  | some (_method, rest) =>
    match splitFirst '$' rest with
    | none => false
    | some (salt, digest) => digest == hashDigest salt password.data

/-! ## Route handlers (src/main.py) -/

/-- Lookup used by register and login (src/main.py lines 155 and 177):
select the first User whose email equals the submitted one
(case-sensitive string comparison). -/
def findUserByEmail (db : DB) (email : String) : Option User :=
  db.users.find? (fun u => u.email == email)

/-- Lookup used by the post routes (db.get_or_404(BlogPost, post_id)). -/
def findPost (db : DB) (post_id : Nat) : Option BlogPost :=
  db.posts.find? (fun p => p.id == post_id)

/-- The pass condition of the admin_only decorator (src/main.py lines 134
to 142): the session is authenticated and bound to user identifier 1. -/
def admin_only (session : Option Nat) : Bool :=
  match session with
  | none => false
  | some uid => uid == 1

/-- /register (src/main.py lines 150 to 167).  submitted models
form.validate_on_submit(); salt models the random salt drawn by
generate_password_hash. -/
def register (db : DB) (session : Option Nat) (submitted : Bool)
    (email password name salt : String) : ReqResult :=
  if !submitted then ⟨.rendered "register.html", db, session⟩
  else match findUserByEmail db email with
  | some _ =>
    ⟨.redirect "login"
      (some "You\x27ve already signed up with that email, log in instead!"),
      db, session⟩
  | none =>
    let new_user : User :=
      { id := db.nextUserId, email := email,
        password := generate_password_hash salt password, name := name }
    ⟨.redirect "get_all_posts" none,
      { db with users := db.users ++ [new_user], nextUserId := db.nextUserId + 1 },
      some new_user.id⟩

/-- /login (src/main.py lines 171 to 188). -/
def login (db : DB) (session : Option Nat) (submitted : Bool)
    (email password : String) : ReqResult :=
  if !submitted then ⟨.rendered "login.html", db, session⟩
  else match findUserByEmail db email with
  | none =>
    ⟨.redirect "login" (some "That email does not exist, please try again."),
      db, session⟩
  | some user =>
    if !check_password_hash user.password password then
      ⟨.redirect "login" (some "Password incorrect, please try again."),
        db, session⟩
    else
      ⟨.redirect "get_all_posts" none, db, some user.id⟩

/-- /logout (src/main.py lines 192 to 196). -/
def logout (db : DB) (_session : Option Nat) : ReqResult :=
  ⟨.redirect "get_all_posts" none, db, none⟩

/-- The read path of / (src/main.py lines 200 to 205): all rows of the
blog_posts table, in table order. -/
def get_all_posts (db : DB) : List BlogPost :=
  db.posts

/-- /post/post_id (src/main.py lines 214 to 226).  comment_text is some t
when the comment form validates (a POST with a comment), none otherwise. -/
def show_post (db : DB) (session : Option Nat) (post_id : Nat)
    (comment_text : Option String) : ReqResult :=
  match findPost db post_id with
  | none => ⟨.notFound, db, session⟩
  | some requested_post =>
    match comment_text with
    | none => ⟨.rendered "post.html", db, session⟩
    | some text =>
      match session with
      | none =>
        ⟨.redirect "login" (some "You need to login or register to comment."),
          db, session⟩
      | some uid =>
        let new_comment : Comment :=
          { id := db.nextCommentId, text := text, author_id := uid,
            post_id := requested_post.id }
        ⟨.rendered "post.html",
          { db with
            comments := db.comments ++ [new_comment]
            nextCommentId := db.nextCommentId + 1 },
          session⟩

/-- True when some stored post already carries the given title; the commit
in add_new_post trips the UNIQUE constraint of the title column
(src/main.py line 85) exactly in this case. -/
def titleTaken (db : DB) (title : String) : Bool :=
  db.posts.any (fun p => p.title == title)

/-- /new-post (src/main.py lines 230 to 248), wrapped by admin_only.  The
handler performs no duplicate-title check of its own: on commit the
UNIQUE constraint of the title column raises an unhandled IntegrityError,
modelled as a fatal response with the store unchanged (the transaction is
rolled back, nothing is persisted). -/
def add_new_post (db : DB) (session : Option Nat) (submitted : Bool)
    (title subtitle body img_url : String) (project_url : Option String)
    (today : String) : ReqResult :=
  match session with
  | none => ⟨.forbidden, db, session⟩
  | some uid =>
    if uid != 1 then ⟨.forbidden, db, session⟩
    else if !submitted then ⟨.rendered "make-post.html", db, session⟩
    else if titleTaken db title then
      ⟨.fatal "UNIQUE constraint failed: blog_posts.title", db, session⟩
    else
      let new_post : BlogPost :=
        { id := db.nextPostId, author_id := uid, title := title,
          subtitle := subtitle, date := today, body := body,
          img_url := img_url, project_url := project_url }
      ⟨.redirect "get_all_posts" none,
        { db with
          posts := db.posts ++ [new_post]
          nextPostId := db.nextPostId + 1 },
        session⟩

/-- /edit-post/post_id (src/main.py lines 252 to 265).  NOTE: this route
carries no admin_only decorator in the source.  On a validated submission
the handler rewrites title, subtitle, img_url, author and body of the
post and commits; it never touches date or project_url (the submitted
project_url is ignored, hence the unused argument).  An anonymous
submitter makes the handler assign the unmapped AnonymousUserMixin to
post.author, which blows up at commit: modelled as fatal.  A commit that
retitles the post to the title of a different post trips the UNIQUE
constraint of the title column: modelled as fatal with the store
unchanged. -/
def edit_post (db : DB) (session : Option Nat) (post_id : Nat)
    (submitted : Bool) (title subtitle img_url body : String)
    (_project_url : Option String) : ReqResult :=
  match findPost db post_id with
  | none => ⟨.notFound, db, session⟩
  | some _post =>
    if !submitted then ⟨.rendered "make-post.html", db, session⟩
    else match session with
    | none => ⟨.fatal "cannot flush the unmapped anonymous user", db, session⟩
    | some uid =>
      if db.posts.any (fun q => q.id != post_id && q.title == title) then
        ⟨.fatal "UNIQUE constraint failed: blog_posts.title", db, session⟩
      else
        ⟨.redirect "show_post" none,
          { db with posts := db.posts.map (fun q =>
              if q.id == post_id then
                { q with
                  title := title
                  subtitle := subtitle
                  img_url := img_url
                  author_id := uid
                  body := body }
              else q) },
          session⟩

/-- /delete/post_id (src/main.py lines 269 to 275), wrapped by
admin_only.  The BlogPost.comments relationship (line 91) configures no
delete cascade and no passive_deletes, so at flush SQLAlchemy
de-associates the dependent comments by setting comments.post_id to
NULL; that column is NOT NULL (line 112, a non-Optional Mapped
annotation), so for a post with dependent comments the flush raises an
unhandled IntegrityError: a fatal server error with nothing deleted.
Only a post with no dependent comments is actually removed, and the
comments table is never touched in any branch. -/
def delete_post (db : DB) (session : Option Nat) (post_id : Nat) : ReqResult :=
  match session with
  | none => ⟨.forbidden, db, session⟩
  | some uid =>
    if uid != 1 then ⟨.forbidden, db, session⟩
    else match findPost db post_id with
    | none => ⟨.notFound, db, session⟩
    | some _post =>
      if db.comments.any (fun c => c.post_id == post_id) then
        ⟨.fatal "NOT NULL constraint failed: comments.post_id", db, session⟩
      else
        ⟨.redirect "get_all_posts" none,
          { db with posts := db.posts.filter (fun p => p.id != post_id) },
          session⟩

/-- /contact (src/main.py lines 286 to 299).  now models datetime.now,
the server-assigned creation timestamp of the message. -/
def contact (db : DB) (session : Option Nat) (isPost : Bool)
    (name email : String) (phone : Option String) (message_text : String)
    (now : Nat) : ReqResult :=
  if !isPost then ⟨.rendered "contact.html", db, session⟩
  else
    let new_message : Message :=
      { id := db.nextMessageId, name := name, email := email, phone := phone,
        message := message_text, date := now }
    ⟨.redirect "contact" (some "Your message has been sent successfully!"),
      { db with
        messages := db.messages ++ [new_message]
        nextMessageId := db.nextMessageId + 1 },
      session⟩

/-- The ordering relation of the admin message listing: newest first by
creation timestamp. -/
def msgGE (a b : Message) : Prop :=
  b.date ≤ a.date

instance : DecidableRel msgGE :=
  fun a b => Nat.decLe b.date a.date

instance : IsTotal Message msgGE :=
  ⟨fun a b => Nat.le_total b.date a.date⟩

instance : IsTrans Message msgGE :=
  ⟨fun _ _ _ hab hbc => Nat.le_trans hbc hab⟩

/-- Outcome of /admin/messages: either abort(403) or the rendered page
together with the list it displays. -/
inductive MessagesView where
  | forbidden
  | page (messages : List Message)
  deriving DecidableEq

/-- /admin/messages (src/main.py lines 303 to 309), wrapped by admin_only
(the additional login_required is subsumed by it).  The query orders by
Message.date descending. -/
def admin_messages (db : DB) (session : Option Nat) : MessagesView :=
  match session with
  | none => .forbidden
  | some uid =>
    if uid != 1 then .forbidden
    else .page (List.insertionSort msgGE db.messages)

/-! ## Reachable stores

A store is reachable when it arises from a fresh database by any sequence
of requests, with arbitrary sessions and inputs at every step. -/

inductive Reachable : DB → Prop
  | init : Reachable DB.empty
  | step_register (db : DB) (s : Option Nat) (sub : Bool) (e pw n salt : String) :
      Reachable db → Reachable (register db s sub e pw n salt).db
  | step_login (db : DB) (s : Option Nat) (sub : Bool) (e pw : String) :
      Reachable db → Reachable (login db s sub e pw).db
  | step_logout (db : DB) (s : Option Nat) :
      Reachable db → Reachable (logout db s).db
  | step_show_post (db : DB) (s : Option Nat) (pid : Nat) (ct : Option String) :
      Reachable db → Reachable (show_post db s pid ct).db
  | step_add_new_post (db : DB) (s : Option Nat) (sub : Bool)
      (t st b img : String) (pu : Option String) (today : String) :
      Reachable db → Reachable (add_new_post db s sub t st b img pu today).db
  | step_edit_post (db : DB) (s : Option Nat) (pid : Nat) (sub : Bool)
      (t st img b : String) (pu : Option String) :
      Reachable db → Reachable (edit_post db s pid sub t st img b pu).db
  | step_delete_post (db : DB) (s : Option Nat) (pid : Nat) :
      Reachable db → Reachable (delete_post db s pid).db
  | step_contact (db : DB) (s : Option Nat) (p : Bool) (n e : String)
      (ph : Option String) (m : String) (now : Nat) :
      Reachable db → Reachable (contact db s p n e ph m now).db

/-- The invariant maintained on the blog_posts table: identifiers and
titles are pairwise distinct, and every identifier is below the
auto-increment counter. -/
def postsInv (db : DB) : Prop :=
  db.posts.Pairwise (fun p q => p.id ≠ q.id ∧ p.title ≠ q.title) ∧
  ∀ p ∈ db.posts, p.id < db.nextPostId

/-! ## Preservation of the blog_posts invariant -/

lemma postsInv_of_eq {db db' : DB} (hp : db'.posts = db.posts)
    (hn : db'.nextPostId = db.nextPostId) (h : postsInv db) : postsInv db' := by
  unfold postsInv at *
  rw [hp, hn]
  exact h

lemma register_preserves_posts (db : DB) (s : Option Nat) (sub : Bool)
    (e pw n salt : String) :
    (register db s sub e pw n salt).db.posts = db.posts ∧
    (register db s sub e pw n salt).db.nextPostId = db.nextPostId := by
  unfold register
  split
  · exact ⟨rfl, rfl⟩
  · split <;> exact ⟨rfl, rfl⟩

lemma login_preserves_db (db : DB) (s : Option Nat) (sub : Bool)
    (e pw : String) : (login db s sub e pw).db = db := by
  unfold login
  split
  · rfl
  · split
    · rfl
    · split <;> rfl

lemma show_post_preserves_posts (db : DB) (s : Option Nat) (pid : Nat)
    (ct : Option String) :
    (show_post db s pid ct).db.posts = db.posts ∧
    (show_post db s pid ct).db.nextPostId = db.nextPostId := by
  unfold show_post
  split
  · exact ⟨rfl, rfl⟩
  · split
    · exact ⟨rfl, rfl⟩
    · split <;> exact ⟨rfl, rfl⟩

lemma contact_preserves_posts (db : DB) (s : Option Nat) (p : Bool)
    (n e : String) (ph : Option String) (m : String) (now : Nat) :
    (contact db s p n e ph m now).db.posts = db.posts ∧
    (contact db s p n e ph m now).db.nextPostId = db.nextPostId := by
  unfold contact
  split <;> exact ⟨rfl, rfl⟩

lemma postsInv_append (db : DB) (p : BlogPost) (hid : p.id = db.nextPostId)
    (htitle : ∀ q ∈ db.posts, q.title ≠ p.title) (h : postsInv db) :
    postsInv { db with
      posts := db.posts ++ [p]
      nextPostId := db.nextPostId + 1 } := by
  obtain ⟨hpw, hbound⟩ := h
  constructor
  · rw [List.pairwise_append]
    refine ⟨hpw, List.pairwise_singleton _ _, ?_⟩
    intro a ha b hb
    rw [List.mem_singleton] at hb
    subst hb
    refine ⟨fun hEq => ?_, htitle a ha⟩
    have := hbound a ha
    rw [hEq, hid] at this
    exact lt_irrefl _ this
  · intro q hq
    rcases List.mem_append.1 hq with h1 | h1
    · exact Nat.lt_succ_of_lt (hbound q h1)
    · rw [List.mem_singleton] at h1
      subst h1
      rw [hid]
      exact Nat.lt_succ_self _

lemma add_new_post_inv (db : DB) (s : Option Nat) (sub : Bool)
    (t st b img : String) (pu : Option String) (today : String)
    (h : postsInv db) : postsInv (add_new_post db s sub t st b img pu today).db := by
  unfold add_new_post
  split
  · exact h
  split
  · exact h
  split
  · exact h
  split
  · exact h
  next uid _ _ hfresh =>
    apply postsInv_append _ _ rfl _ h
    intro q hq
    have hall := List.any_eq_false.1 (Bool.of_not_eq_true hfresh) q hq
    simpa using hall

lemma postsInv_filter (db : DB) (f : BlogPost → Bool) (h : postsInv db) :
    postsInv { db with posts := db.posts.filter f } := by
  obtain ⟨hpw, hbound⟩ := h
  exact ⟨hpw.sublist (List.filter_sublist _),
    fun q hq => hbound q (List.mem_of_mem_filter hq)⟩

lemma delete_post_inv (db : DB) (s : Option Nat) (pid : Nat)
    (h : postsInv db) : postsInv (delete_post db s pid).db := by
  unfold delete_post
  split
  · exact h
  split
  · exact h
  split
  · exact h
  split
  · exact h
  · exact postsInv_filter db _ h

lemma edit_post_inv (db : DB) (s : Option Nat) (pid : Nat) (sub : Bool)
    (t st img b : String) (pu : Option String)
    (h : postsInv db) : postsInv (edit_post db s pid sub t st img b pu).db := by
  unfold edit_post
  split
  · exact h
  split
  · exact h
  split
  · exact h
  split
  · exact h
  next uid hnc =>
    obtain ⟨hpw, hbound⟩ := h
    have hnc' : ∀ q ∈ db.posts, ¬(q.id ≠ pid ∧ q.title = t) := by
      intro q hq
      have hall := List.any_eq_false.1 (Bool.of_not_eq_true hnc) q hq
      simpa using hall
    constructor
    · rw [List.pairwise_map]
      refine hpw.imp_of_mem ?_
      intro a c ha hc hac
      by_cases hA : (a.id == pid) = true <;> by_cases hC : (c.id == pid) = true
      · exact absurd ((beq_iff_eq.mp hA).trans (beq_iff_eq.mp hC).symm) hac.1
      · simp only [hA, hC, if_pos, if_neg, Bool.false_eq_true, ite_true, ite_false]
        refine ⟨hac.1, fun hEq => ?_⟩
        exact hnc' c hc ⟨fun h2 => hC (by rw [h2]; exact beq_self_eq_true pid), hEq.symm⟩
      · simp only [hA, hC, Bool.false_eq_true, ite_true, ite_false]
        refine ⟨hac.1, fun hEq => ?_⟩
        exact hnc' a ha ⟨fun h2 => hA (by rw [h2]; exact beq_self_eq_true pid), hEq⟩
      · simp only [hA, hC, Bool.false_eq_true, ite_false]
        exact hac
    · intro q hq
      rw [List.mem_map] at hq
      obtain ⟨a, ha, rfl⟩ := hq
      by_cases hA : (a.id == pid) = true
      · simp only [hA, ite_true]
        exact hbound a ha
      · simp only [hA, Bool.false_eq_true, ite_false]
        exact hbound a ha

/-- Every reachable store satisfies the blog_posts invariant: identifiers
and titles pairwise distinct, identifiers below the counter. -/
theorem reachable_postsInv (db : DB) (h : Reachable db) : postsInv db := by
  induction h with
  | init =>
    exact ⟨List.Pairwise.nil, fun p hp => absurd hp (List.not_mem_nil p)⟩
  | step_register db s sub e pw n salt _ ih =>
    exact postsInv_of_eq (register_preserves_posts db s sub e pw n salt).1
      (register_preserves_posts db s sub e pw n salt).2 ih
  | step_login db s sub e pw _ ih =>
    exact postsInv_of_eq (by rw [login_preserves_db]) (by rw [login_preserves_db]) ih
  | step_logout db s _ ih =>
    exact ih
  | step_show_post db s pid ct _ ih =>
    exact postsInv_of_eq (show_post_preserves_posts db s pid ct).1
      (show_post_preserves_posts db s pid ct).2 ih
  | step_add_new_post db s sub t st b img pu today _ ih =>
    exact add_new_post_inv db s sub t st b img pu today ih
  | step_edit_post db s pid sub t st img b pu _ ih =>
    exact edit_post_inv db s pid sub t st img b pu ih
  | step_delete_post db s pid _ ih =>
    exact delete_post_inv db s pid ih
  | step_contact db s p n e ph m now _ ih =>
    exact postsInv_of_eq (contact_preserves_posts db s p n e ph m now).1
      (contact_preserves_posts db s p n e ph m now).2 ih

/-! ## Concrete stores used to exercise the handlers -/

/-- A post authored by the admin, with a non-empty project URL. -/
def post1 : BlogPost :=
  { id := 1, author_id := 1, title := "T1", subtitle := "S1",
    date := "January 01, 2024", body := "B1", img_url := "I1",
    project_url := some "OldProj" }

/-- A small concrete store: the first registered user (the admin), a
second registered user, one post authored by the admin, one comment by
user 2 on post 1, and two messages whose timestamps are stored
oldest-first. -/
def dbSample : DB :=
  { users :=
      [{ id := 1, email := "admin@x.com", password := "h1", name := "Admin" },
       { id := 2, email := "bob@x.com", password := "h2", name := "Bob" }]
    posts := [post1]
    comments := [{ id := 1, text := "nice", author_id := 2, post_id := 1 }]
    messages :=
      [{ id := 1, name := "v1", email := "v1@x.com", phone := none,
         message := "hello", date := 10 },
       { id := 2, name := "v2", email := "v2@x.com", phone := some "123",
         message := "later", date := 20 }]
    nextUserId := 3
    nextPostId := 2
    nextCommentId := 2
    nextMessageId := 3 }

/-! ## Claims -/

/-- Claim C1.  The claim states that only the session of user 1 reaches
create-post, edit-post, delete-post and the admin message list, everyone
else getting a 403 with no side effects.  The code violates this for
edit-post: the route carries no admin_only decorator (src/main.py line
252), so a freshly registered user (identifier 2) who is rejected by the
guard nevertheless edits the post successfully, with a persistent write
to the store. -/
theorem c1_edit_post_unguarded_for_non_admin :
    admin_only (some 2) = false ∧
    (edit_post dbSample (some 2) 1 true "Hacked" "S2" "I2" "B2" none).resp =
      Response.redirect "show_post" none ∧
    (edit_post dbSample (some 2) 1 true "Hacked" "S2" "I2" "B2" none).db.posts =
      [{ id := 1, author_id := 2, title := "Hacked", subtitle := "S2",
         date := "January 01, 2024", body := "B2", img_url := "I2",
         project_url := some "OldProj" }] := by
  refine ⟨rfl, ?_, ?_⟩ <;> decide

/-- Claim C2: registering an email a second time never creates a second
User record; the duplicate attempt leaves the store unchanged, flashes
the already-registered message and redirects to login, while a fresh
email creates exactly one User carrying the hashed password and binds the
session to it. -/
theorem c2_register_no_duplicate (db : DB) (s : Option Nat)
    (email pw name salt : String) :
    (∀ u, findUserByEmail db email = some u →
      register db s true email pw name salt =
        ⟨Response.redirect "login"
          (some "You\x27ve already signed up with that email, log in instead!"),
          db, s⟩) ∧
    (findUserByEmail db email = none →
      register db s true email pw name salt =
        ⟨Response.redirect "get_all_posts" none,
          { db with
            users := db.users ++
              [{ id := db.nextUserId, email := email,
                 password := generate_password_hash salt pw, name := name }]
            nextUserId := db.nextUserId + 1 },
          some db.nextUserId⟩) := by
  constructor
  · intro u hu
    simp [register, hu]
  · intro hnone
    simp [register, hnone]

/-- Witness for C2 at a concrete input: re-registering the email of user
2 of dbSample changes nothing and redirects to login. -/
theorem c2_register_no_duplicate_witness :
    register dbSample none true "bob@x.com" "pw2" "Bob2" "ss" =
      ⟨Response.redirect "login"
        (some "You\x27ve already signed up with that email, log in instead!"),
        dbSample, none⟩ :=
  (c2_register_no_duplicate dbSample none "bob@x.com" "pw2" "Bob2" "ss").1
    { id := 2, email := "bob@x.com", password := "h2", name := "Bob" }
    (by decide)

/-- Claim C3: on an existing post, an anonymous comment submission
creates zero Comment records and redirects to login (the store is
returned unchanged), while an authenticated submission creates exactly
one Comment bound to the submitting identity and to the resolved post. -/
theorem c3_comment_requires_auth (db : DB) (pid : Nat) (text : String)
    (post : BlogPost) (hpost : findPost db pid = some post) :
    (show_post db none pid (some text) =
      ⟨Response.redirect "login"
        (some "You need to login or register to comment."), db, none⟩) ∧
    (∀ uid, (show_post db (some uid) pid (some text)).db.comments =
        db.comments ++
          [{ id := db.nextCommentId, text := text, author_id := uid,
             post_id := post.id }] ∧
      (show_post db (some uid) pid (some text)).resp =
        Response.rendered "post.html") := by
  refine ⟨by simp [show_post, hpost], fun uid => ⟨?_, ?_⟩⟩
  · simp [show_post, hpost]
  · simp [show_post, hpost]

/-- Witness for C3 at a concrete input: user 2 comments on post 1 of
dbSample; exactly one comment row is appended, bound to user 2 and
post 1. -/
theorem c3_comment_requires_auth_witness :
    show_post dbSample none 1 (some "hey") =
      ⟨Response.redirect "login"
        (some "You need to login or register to comment."), dbSample, none⟩ ∧
    (show_post dbSample (some 2) 1 (some "hey")).db.comments =
      dbSample.comments ++
        [{ id := 2, text := "hey", author_id := 2, post_id := 1 }] :=
  ⟨(c3_comment_requires_auth dbSample 1 "hey" post1 (by decide)).1,
   ((c3_comment_requires_auth dbSample 1 "hey" post1 (by decide)).2 2).1⟩

/-- Claim C4: for a stored post, when the admin delete-post operation
succeeds on its identifier, the post no longer appears in the
list-all-posts read path, and a direct lookup of its former identifier
through show-post yields NotFound.  (The delete succeeds exactly when no
stored comment references the post; with dependent comments the flush
dies on the NOT NULL foreign key and nothing is deleted.) -/
theorem c4_delete_removes_post (db : DB) (pid : Nat) (p : BlogPost)
    (hp : findPost db pid = some p)
    (hs : (delete_post db (some 1) pid).resp =
      Response.redirect "get_all_posts" none) :
    (∀ q ∈ get_all_posts (delete_post db (some 1) pid).db, q.id ≠ pid) ∧
    (∀ s ct, (show_post (delete_post db (some 1) pid).db s pid ct).resp =
      Response.notFound) := by
  by_cases hany : db.comments.any (fun c => c.post_id == pid) = true
  · have hfat : (delete_post db (some 1) pid).resp =
        Response.fatal "NOT NULL constraint failed: comments.post_id" := by
      simp [delete_post, hp, hany]
    rw [hfat] at hs
    exact Response.noConfusion hs
  · have hcf : db.comments.any (fun c => c.post_id == pid) = false :=
      Bool.of_not_eq_true hany
    have hdel : (delete_post db (some 1) pid).db =
        { db with posts := db.posts.filter (fun q => q.id != pid) } := by
      simp [delete_post, hp, hcf]
    refine ⟨?_, ?_⟩
    · intro q hq
      rw [hdel] at hq
      simp only [get_all_posts] at hq
      have hmem := (List.mem_filter.1 hq).2
      simpa using hmem
    · intro s ct
      have hfind : findPost (delete_post db (some 1) pid).db pid = none := by
        rw [hdel]
        unfold findPost
        rw [List.find?_eq_none]
        intro x hx
        have hmem := (List.mem_filter.1 hx).2
        simpa using hmem
      simp [show_post, hfind]

/-- The sample store with the comments table emptied: here post 1 has no
dependent comments, so its deletion can actually go through. -/
def dbNoComments : DB :=
  { dbSample with comments := [] }

/-- Witness for C4 at a concrete input: over dbNoComments the admin
delete of post 1 succeeds (the success hypothesis holds by evaluation),
and looking post 1 up afterwards yields NotFound. -/
theorem c4_delete_removes_post_witness :
    (delete_post dbNoComments (some 1) 1).resp =
      Response.redirect "get_all_posts" none ∧
    (show_post (delete_post dbNoComments (some 1) 1).db (some 2) 1 none).resp =
      Response.notFound :=
  ⟨by decide,
   (c4_delete_removes_post dbNoComments 1 post1 (by decide)
     (by decide)).2 (some 2) none⟩

/-- True exactly on the response shape the spec prescribes for a
conflict: a redirect carrying a flash message. -/
def isConflictFlashRedirect : Response → Bool
  | Response.redirect _ (some _) => true
  | _ => false

lemma add_new_post_dup (db : DB) (s : Option Nat) (st b img : String)
    (pu : Option String) (today t : String) (ht : titleTaken db t = true) :
    (add_new_post db s true t st b img pu today).db = db ∧
    isConflictFlashRedirect (add_new_post db s true t st b img pu today).resp =
      false := by
  rcases s with _ | uid
  · exact ⟨rfl, rfl⟩
  · by_cases h1 : uid = 1
    · subst h1
      simp [add_new_post, ht, isConflictFlashRedirect]
    · have h1t : (uid != 1) = true := by simpa using h1
      simp [add_new_post, h1t, isConflictFlashRedirect]

lemma add_new_post_dup_admin (db : DB) (st b img : String)
    (pu : Option String) (today t : String) (ht : titleTaken db t = true) :
    (add_new_post db (some 1) true t st b img pu today).resp =
      Response.fatal "UNIQUE constraint failed: blog_posts.title" := by
  simp [add_new_post, ht]

/-- Claim C5, counterexample.  The claim asserts that a duplicate-title
create attempt is surfaced as a user-visible conflict (flash message and
redirect) rather than a crash.  In the code add_new_post performs no
duplicate check (src/main.py lines 230 to 248): the commit trips the
UNIQUE constraint of the title column and the IntegrityError propagates
unhandled, a crash, not a flash-redirect. -/
theorem c5_duplicate_title_counterexample :
    titleTaken dbSample "T1" = true ∧
    (add_new_post dbSample (some 1) true "T1" "S9" "B9" "I9" none "today").db =
      dbSample ∧
    (add_new_post dbSample (some 1) true "T1" "S9" "B9" "I9" none "today").resp =
      Response.fatal "UNIQUE constraint failed: blog_posts.title" ∧
    isConflictFlashRedirect
      (add_new_post dbSample (some 1) true "T1" "S9" "B9" "I9" none
        "today").resp = false := by
  refine ⟨rfl, ?_, ?_, ?_⟩ <;> decide

/-- Claim C5, amended: in every reachable store no two posts share a
title, and a duplicate-title create attempt never mutates the store; but
the attempt is not surfaced as a flash-and-redirect conflict: for the
admin it propagates as a fatal unique-constraint error. -/
theorem c5_amended_title_uniqueness :
    (∀ db, Reachable db →
      db.posts.Pairwise (fun p q => p.title ≠ q.title)) ∧
    (∀ db s st b img pu today t, titleTaken db t = true →
      (add_new_post db s true t st b img pu today).db = db ∧
      isConflictFlashRedirect
        (add_new_post db s true t st b img pu today).resp = false) ∧
    (∀ db st b img pu today t, titleTaken db t = true →
      (add_new_post db (some 1) true t st b img pu today).resp =
        Response.fatal "UNIQUE constraint failed: blog_posts.title") := by
  refine ⟨?_, ?_, ?_⟩
  · intro db h
    exact List.Pairwise.imp (fun hpq => hpq.2) (reachable_postsInv db h).1
  · intro db s st b img pu today t ht
    exact add_new_post_dup db s st b img pu today t ht
  · intro db st b img pu today t ht
    exact add_new_post_dup_admin db st b img pu today t ht

/-- Witness for the amended C5 at a concrete input: creating a second
post titled T1 over dbSample leaves the store unchanged and dies with
the unique-constraint error. -/
theorem c5_amended_title_uniqueness_witness :
    (add_new_post dbSample (some 1) true "T1" "S9" "B9" "I9" none
      "today").db = dbSample ∧
    (add_new_post dbSample (some 1) true "T1" "S9" "B9" "I9" none
      "today").resp =
      Response.fatal "UNIQUE constraint failed: blog_posts.title" :=
  ⟨(c5_amended_title_uniqueness.2.1 dbSample (some 1) "S9" "B9" "I9" none
      "today" "T1" (by decide)).1,
   c5_amended_title_uniqueness.2.2 dbSample "S9" "B9" "I9" none
      "today" "T1" (by decide)⟩

/-! ## Credential lemmas for C6 -/

lemma splitFirst_append (sep : Char) (a b : List Char) (h : sep ∉ a) :
    splitFirst sep (a ++ sep :: b) = some (a, b) := by
  induction a with
  | nil => simp [splitFirst]
  | cons c cs ih =>
    have hc : ¬(c = sep) := fun hEq => h (by rw [hEq]; exact List.mem_cons_self sep cs)
    have hcs : sep ∉ cs := fun hm => h (List.mem_cons_of_mem c hm)
    simp [splitFirst, hc, ih hcs]

lemma check_generate (salt pw cand : String) (h : '$' ∉ salt.data) :
    check_password_hash (generate_password_hash salt pw) cand =
      (hashDigest salt.data pw.data == hashDigest salt.data cand.data) := by
  have hm : '$' ∉ "pbkdf2:sha256:600000".data := by decide
  have e1 : (generate_password_hash salt pw).data =
      "pbkdf2:sha256:600000".data ++
        '$' :: (salt.data ++ '$' :: hashDigest salt.data pw.data) := rfl
  unfold check_password_hash
  rw [e1]
  simp only [splitFirst_append '$' _ _ hm, splitFirst_append '$' _ _ h]

/-- Claim C6: after registration the stored password is the salted hash
of the submitted plaintext; verification of a candidate against that
hash succeeds exactly when the candidate equals the original plaintext;
and the stored value never equals the plaintext.  The salt drawn by
werkzeug contains no separator character. -/
theorem c6_password_verification (db : DB) (s : Option Nat)
    (email pw name salt cand : String)
    (hfresh : findUserByEmail db email = none) (hsalt : '$' ∉ salt.data) :
    (register db s true email pw name salt).db.users =
      db.users ++ [{ id := db.nextUserId, email := email,
                     password := generate_password_hash salt pw,
                     name := name }] ∧
    (check_password_hash (generate_password_hash salt pw) cand = true ↔
      cand = pw) ∧
    generate_password_hash salt pw ≠ pw := by
  refine ⟨by simp [register, hfresh], ?_, ?_⟩
  · rw [check_generate salt pw cand hsalt]
    constructor
    · intro hEq
      have h2 : hashDigest salt.data pw.data = hashDigest salt.data cand.data :=
        beq_iff_eq.mp hEq
      unfold hashDigest at h2
      have h3 : pw.data.reverse = cand.data.reverse :=
        List.append_cancel_right h2
      exact (String.ext (List.reverse_inj.mp h3)).symm
    · intro hEq
      rw [hEq]
      exact beq_self_eq_true _
  · intro hEq
    have h2 := congrArg String.data hEq
    have h2l := congrArg List.length h2
    have hml : ("pbkdf2:sha256:600000".data).length = 20 := by decide
    simp only [generate_password_hash, hashDigest] at h2l
    simp [List.length_append, List.length_cons, List.length_reverse, hml] at h2l
    omega

/-- Witness for C6 at a concrete input: registering over the empty store
with salt saltsalt and password pw. -/
theorem c6_password_verification_witness :
    (register DB.empty none true "a@x.com" "pw" "Alice" "saltsalt").db.users =
      DB.empty.users ++ [{ id := DB.empty.nextUserId, email := "a@x.com",
                           password := generate_password_hash "saltsalt" "pw",
                           name := "Alice" }] ∧
    (check_password_hash (generate_password_hash "saltsalt" "pw") "nope" = true ↔
      ("nope" : String) = "pw") ∧
    generate_password_hash "saltsalt" "pw" ≠ "pw" :=
  c6_password_verification DB.empty none "a@x.com" "pw" "Alice" "saltsalt"
    "nope" rfl (by decide)

/-- Claim C7: login rejects an unknown email with the unknown-email
flash, rejects a wrong password with the distinct wrong-password flash,
in both cases leaving the store and the session unchanged; with both
checks passing it binds the session to the matched user. -/
theorem c7_login_outcomes (db : DB) (s : Option Nat) (email pw : String) :
    (findUserByEmail db email = none →
      login db s true email pw =
        ⟨Response.redirect "login"
          (some "That email does not exist, please try again."), db, s⟩) ∧
    (∀ u, findUserByEmail db email = some u →
      check_password_hash u.password pw = false →
      login db s true email pw =
        ⟨Response.redirect "login"
          (some "Password incorrect, please try again."), db, s⟩) ∧
    (∀ u, findUserByEmail db email = some u →
      check_password_hash u.password pw = true →
      login db s true email pw =
        ⟨Response.redirect "get_all_posts" none, db, some u.id⟩) ∧
    ("That email does not exist, please try again." ≠
      "Password incorrect, please try again.") := by
  refine ⟨?_, ?_, ?_, by decide⟩
  · intro hnone
    simp [login, hnone]
  · intro u hu hbad
    simp [login, hu, hbad]
  · intro u hu hok
    simp [login, hu, hok]

/-- Witness for C7 at concrete inputs: an unknown email and a wrong
password over dbSample, both rejected with their distinct flashes and no
session established. -/
theorem c7_login_outcomes_witness :
    login dbSample none true "ghost@x.com" "pw" =
      ⟨Response.redirect "login"
        (some "That email does not exist, please try again."), dbSample, none⟩ ∧
    login dbSample none true "bob@x.com" "wrong" =
      ⟨Response.redirect "login"
        (some "Password incorrect, please try again."), dbSample, none⟩ :=
  ⟨(c7_login_outcomes dbSample none "ghost@x.com" "pw").1 (by decide),
   (c7_login_outcomes dbSample none "bob@x.com" "wrong").2.1
     { id := 2, email := "bob@x.com", password := "h2", name := "Bob" }
     (by decide) (by decide)⟩

/-- Claim C8: for the admin the message listing returns every stored
Message (a permutation of the messages table) ordered newest-first: along
the returned list each message carries a timestamp greater than or equal
to that of its successor. -/
theorem c8_admin_messages_sorted (db : DB) (s : Option Nat)
    (h : admin_only s = true) :
    admin_messages db s =
      MessagesView.page (List.insertionSort msgGE db.messages) ∧
    (List.insertionSort msgGE db.messages).Perm db.messages ∧
    (List.insertionSort msgGE db.messages).Chain'
      (fun a b => b.date ≤ a.date) := by
  refine ⟨?_, List.perm_insertionSort msgGE db.messages, ?_⟩
  · match s with
    | none => simp [admin_only] at h
    | some uid =>
      have huid : uid = 1 := by simpa [admin_only] using h
      subst huid
      simp [admin_messages]
  · exact List.Pairwise.chain' (List.sorted_insertionSort msgGE db.messages)

/-- Witness for C8 at a concrete input: the two messages of dbSample are
stored oldest-first and come back newest-first. -/
theorem c8_admin_messages_sorted_witness :
    admin_messages dbSample (some 1) =
      MessagesView.page (List.insertionSort msgGE dbSample.messages) ∧
    (List.insertionSort msgGE dbSample.messages).Perm dbSample.messages ∧
    (List.insertionSort msgGE dbSample.messages).Chain'
      (fun a b => b.date ≤ a.date) :=
  c8_admin_messages_sorted dbSample (some 1) rfl

/-! ## Lemmas for C9 -/

lemma find?_update (l : List BlogPost) (pid : Nat) (post : BlogPost)
    (upd : BlogPost → BlogPost) (hid : ∀ q, (upd q).id = q.id)
    (hfind : l.find? (fun p => p.id == pid) = some post) :
    (l.map (fun q => if q.id == pid then upd q else q)).find?
      (fun p => p.id == pid) = some (upd post) := by
  induction l with
  | nil => simp at hfind
  | cons a as ih =>
    by_cases hA : (a.id == pid) = true
    · rw [List.find?_cons_of_pos as hA] at hfind
      obtain rfl : a = post := Option.some.inj hfind
      rw [List.map_cons, if_pos hA]
      exact List.find?_cons_of_pos _ (by rw [hid]; exact hA)
    · have hfind' : as.find? (fun p => p.id == pid) = some post := by
        rwa [List.find?_cons_of_neg as hA] at hfind
      rw [List.map_cons, if_neg hA]
      rw [List.find?_cons_of_neg (p := fun q : BlogPost => q.id == pid) _ hA]
      exact ih hfind'

/-- Claim C9, counterexample.  The claim asserts that a successful edit
rewrites all fields, date and project URL included, to the submitted
values.  The handler (src/main.py lines 257 to 263) assigns only title,
subtitle, img_url, author and body: editing post 1 of dbSample with a
submitted project URL NewProj leaves the stored project URL at OldProj
and the stored date at its original value. -/
theorem c9_edit_ignores_date_and_project_url :
    (edit_post dbSample (some 1) 1 true "T2" "S2" "I2" "B2"
      (some "NewProj")).resp = Response.redirect "show_post" none ∧
    (edit_post dbSample (some 1) 1 true "T2" "S2" "I2" "B2"
      (some "NewProj")).db.posts =
      [{ id := 1, author_id := 1, title := "T2", subtitle := "S2",
         date := "January 01, 2024", body := "B2", img_url := "I2",
         project_url := some "OldProj" }] ∧
    (some "OldProj" : Option String) ≠ some "NewProj" := by
  refine ⟨?_, ?_, ?_⟩ <;> decide

/-- Claim C9, amended: a successful edit rewrites title, subtitle, image
URL and body to the submitted values and reassigns the author of the
post to the editing user; the date and project URL fields are left
unchanged (the handler never assigns them). -/
theorem c9_amended_edit_rewrite (db : DB) (pid uid : Nat)
    (t st img b : String) (pu : Option String) (post : BlogPost)
    (hp : findPost db pid = some post)
    (hnc : db.posts.any (fun q => q.id != pid && q.title == t) = false) :
    (edit_post db (some uid) pid true t st img b pu).resp =
      Response.redirect "show_post" none ∧
    findPost (edit_post db (some uid) pid true t st img b pu).db pid =
      some { id := post.id, author_id := uid, title := t, subtitle := st,
             date := post.date, body := b, img_url := img,
             project_url := post.project_url } := by
  have hdb : (edit_post db (some uid) pid true t st img b pu).db =
      { db with posts := db.posts.map (fun q =>
          if q.id == pid then
            { q with
              title := t
              subtitle := st
              img_url := img
              author_id := uid
              body := b }
          else q) } := by
    simp [edit_post, hp, hnc]
  refine ⟨by simp [edit_post, hp, hnc], ?_⟩
  rw [hdb]
  unfold findPost
  exact find?_update db.posts pid post
    (fun q => { q with
                title := t
                subtitle := st
                img_url := img
                author_id := uid
                body := b })
    (fun q => rfl) hp

/-- Witness for the amended C9 at a concrete input: editing post 1 of
dbSample as the admin rewrites title, subtitle, image URL and body,
reassigns the author, and leaves date and project URL untouched. -/
theorem c9_amended_edit_rewrite_witness :
    (edit_post dbSample (some 1) 1 true "T2" "S2" "I2" "B2"
      (some "NewProj")).resp = Response.redirect "show_post" none ∧
    findPost (edit_post dbSample (some 1) 1 true "T2" "S2" "I2" "B2"
      (some "NewProj")).db 1 =
      some { id := post1.id, author_id := 1, title := "T2", subtitle := "S2",
             date := post1.date, body := "B2", img_url := "I2",
             project_url := post1.project_url } :=
  c9_amended_edit_rewrite dbSample 1 1 "T2" "S2" "I2" "B2" (some "NewProj")
    post1 (by decide) (by decide)

/-- Claim C10, counterexample.  The claim presupposes that the admin
delete-post operation succeeds on a post with existing comments.  It
never does: post 1 of dbSample carries a dependent comment, and its
deletion dies at flush on the NOT NULL foreign key of the comments
table — a fatal error, not the success redirect, with the store (post
included) fully unchanged. -/
theorem c10_delete_with_comments_counterexample :
    dbSample.comments.any (fun c => c.post_id == 1) = true ∧
    (delete_post dbSample (some 1) 1).resp =
      Response.fatal "NOT NULL constraint failed: comments.post_id" ∧
    (delete_post dbSample (some 1) 1).resp ≠
      Response.redirect "get_all_posts" none ∧
    (delete_post dbSample (some 1) 1).db = dbSample := by
  refine ⟨?_, ?_, ?_, ?_⟩ <;> decide

/-- Claim C10, amended: the dependent comments of a post are never
deleted by delete-post, but not because a delete of a commented post
succeeds and spares them: for a post with existing comments the admin
delete fails at flush (the uncascaded relationship nulls the NOT NULL
comments.post_id), an unhandled fatal error that returns the store
unchanged, post and referencing comments included; and in every branch
of delete-post the comments table is untouched. -/
theorem c10_delete_preserves_comments (db : DB) (s : Option Nat) (pid : Nat)
    (p : BlogPost) (hadmin : admin_only s = true)
    (hp : findPost db pid = some p)
    (hc : db.comments.any (fun c => c.post_id == pid) = true) :
    delete_post db s pid =
      ⟨Response.fatal "NOT NULL constraint failed: comments.post_id", db, s⟩ ∧
    (∀ db2 s2 pid2, (delete_post db2 s2 pid2).db.comments = db2.comments) := by
  constructor
  · match s with
    | none => simp [admin_only] at hadmin
    | some uid =>
      have huid : uid = 1 := by simpa [admin_only] using hadmin
      subst huid
      simp [delete_post, hp, hc]
  · intro db2 s2 pid2
    unfold delete_post
    split
    · rfl
    split
    · rfl
    split
    · rfl
    split
    · rfl
    · rfl

/-- Witness for the amended C10 at a concrete input: deleting post 1 of
dbSample dies on the foreign-key constraint with the store unchanged,
the comment of user 2 on post 1 still in the comments table. -/
theorem c10_delete_preserves_comments_witness :
    delete_post dbSample (some 1) 1 =
      ⟨Response.fatal "NOT NULL constraint failed: comments.post_id",
        dbSample, some 1⟩ ∧
    (delete_post dbSample (some 1) 1).db.comments = dbSample.comments :=
  ⟨(c10_delete_preserves_comments dbSample (some 1) 1 post1 rfl (by decide)
      (by decide)).1,
   (c10_delete_preserves_comments dbSample (some 1) 1 post1 rfl (by decide)
      (by decide)).2 dbSample (some 1) 1⟩
